import Mathlib

/-!
Shallow embedding of the core of the `affiliates_profit_automator` backend
(`src/backend/app`), covering:

* the Content record and its declared status enumeration
  (`app/models/content.py`, class `ContentStatus`);
* the WebSocket generation handler
  (`app/api/v1/websocket.py`, `websocket_generate_content`);
* the social-media fan-out
  (`app/services/social_media.py`, `SocialMediaManager.post_to_multiple`)
  and the publishing task around it
  (`app/tasks/publishing_tasks.py`, `publish_to_social_media`);
* the content PATCH endpoint (`app/api/v1/content.py`, `update_content`);
* the scheduler sweep
  (`app/tasks/publishing_tasks.py`, `publish_scheduled_content`);
* the Celery retry behaviour of `generate_content_task`
  (`app/tasks/content_tasks.py`) and `publish_to_wordpress`.

External capabilities (the Claude token stream, the platform adapters, the
database commit) are passed in as explicit parameters, matching the
collaborator boundaries the code calls out to.
-/

namespace APA

/-- A value stored in a Content record's free-form metadata map.
The repository stores JSON; the claims only ever inspect string values
(the `"error"` entry written by the failure paths) and the nested
per-platform publish results written by `publish_to_social_media`,
so metadata values are restricted to those shapes. -/
inductive MetaVal where
  | str (s : String)
  | socialResults (rs : List (String × String × Option String × Option String))
  deriving DecidableEq, Repr

/-- One entry of the `social_media` metadata block written by
`publish_to_social_media`: platform name, then status string
(`"published"`/`"failed"`), optional post id, optional error detail. -/
abbrev SocialEntry := String × String × Option String × Option String

/-- The Content record (`app/models/content.py`, class `Content`).
Ids are numbers rather than UUIDs; timestamps are integers. -/
structure ContentRec where
  id : Nat
  userId : Nat
  campaignId : Option Nat
  ctype : String
  title : Option String
  body : String
  metadata : List (String × MetaVal)
  status : String
  scheduledFor : Option Int
  publishedAt : Option Int
  deriving DecidableEq, Repr

/-- The declared values of the `ContentStatus` enum
(`app/models/content.py` lines 22-27): DRAFT, PUBLISHED, SCHEDULED,
ARCHIVED — and no others. -/
def contentStatusValues : List String :=
  ["draft", "published", "scheduled", "archived"]

/-- The seven lifecycle states named by the specification's state machine. -/
def specStatusValues : List String :=
  ["queued", "generating", "draft", "scheduled", "published", "failed", "archived"]

/-! ## WebSocket generation handler (`app/api/v1/websocket.py`) -/

/-- A generation request received over the WebSocket
(`message.get("type"/"campaign_id"/"prompt"/"title"/"metadata")`).
A missing `type` or `prompt` is modelled as the empty string: the guard
`if not content_type or not prompt` treats `None` and `""` alike. -/
structure GenRequest where
  rtype : String
  campaignId : Option Nat
  prompt : String
  title : Option String
  metadata : List (String × MetaVal)
  deriving DecidableEq, Repr

/-- A message delivered to the client (`ConnectionManager.send_*`). -/
inductive Msg where
  | connected
  | started (contentId : Nat)
  | chunk (content : String)
  | complete (contentId : Nat)
  | error (message : String)
  deriving DecidableEq, Repr

/-- Connection state seen by `ConnectionManager.send_message`: `none` means
the client stays connected; `some k` means exactly `k` more sends reach the
client before the underlying socket is closed, after which `send_json`
raises. (Within one request the registry entry is still present, so the
membership check in `send_message` passes and the failure surfaces as an
exception, not a silent drop.) -/
abbrev Conn := Option Nat

/-- One `send_json`: `some conn'` on success, `none` when the socket is
closed and the send raises. -/
def sendMsg : Conn → Option Conn
  | none => some none
  | some 0 => none
  | some (k + 1) => some (some k)

/-- The `async for chunk in claude_service.generate_content_stream(...)`
loop body: `generated_text += chunk` then `send_text_chunk`. Returns the
accumulated text, delivered chunk messages, remaining connection state and
whether every send succeeded (a failed send raises out of the loop,
abandoning the stream). -/
def streamChunks (acc : String) (delivered : List Msg) (conn : Conn) :
    List String → String × List Msg × Conn × Bool
  | [] => (acc, delivered, conn, true)
  | c :: rest =>
    let acc' := acc ++ c
    match sendMsg conn with
    | none => (acc', delivered, conn, false)
    | some conn' => streamChunks acc' (delivered ++ [Msg.chunk c]) conn' rest

/-- Result of handling one client message inside the `while True` loop of
`websocket_generate_content`: the database after commits, the messages the
client actually received, the remaining connection state, and whether the
loop continues (`false` means an exception escaped the inner `try` and the
handler — and with it the session — terminated). -/
structure ReqResult where
  db : List ContentRec
  msgs : List Msg
  conn : Conn
  continueLoop : Bool
  deriving DecidableEq, Repr

/-- The Content record created by the handler before streaming:
`Content(user_id=…, campaign_id=…, type=…, title=…, body="",
metadata=metadata, status="generating")`. -/
def mkGeneratingContent (nextId userId : Nat) (req : GenRequest) : ContentRec :=
  { id := nextId
    userId := userId
    campaignId := req.campaignId
    ctype := req.rtype
    title := req.title
    body := ""
    metadata := req.metadata
    status := "generating"
    scheduledFor := none
    publishedAt := none }

/-- Overwrite-or-append one key of a metadata map (Python
`{**(content.metadata or {}), key: v}`). -/
def setMeta (m : List (String × MetaVal)) (key : String) (v : MetaVal) :
    List (String × MetaVal) :=
  (m.filter (fun kv => kv.1 ≠ key)) ++ [(key, v)]

/-- Handle one generation request, following `websocket_generate_content`
line by line.  Inputs beyond the request: the stored records `db`, the id
the store will assign (`nextId`), the authenticated `userId`, the token
stream of the generation capability (`chunks`, then `streamErr` if the
stream raises after those chunks), and the connection state.

Control flow mirrored from the source:
* empty `type` or `prompt` → `send_error` and `continue` (no record);
* create record in status `"generating"` with empty body, commit;
* `send_message {"type": "started", ...}`;
* stream chunks, each appended to the accumulator then forwarded;
* on stream success: `content.body = generated_text`,
  `content.status = "draft"`, commit, `send_complete`;
* on any exception the inner `except` first calls `send_error`; only if
  that send succeeds does it mark the record `"failed"` and record the
  error in metadata — when the connection is gone that send raises too and
  the record keeps its last committed state. -/
def handleRequest (db : List ContentRec) (nextId userId : Nat)
    (req : GenRequest) (chunks : List String) (streamErr : Option String)
    (conn : Conn) : ReqResult :=
  if req.rtype = "" ∨ req.prompt = "" then
    match sendMsg conn with
    | some conn' =>
      { db := db
        msgs := [Msg.error "Missing required fields: type and prompt"]
        conn := conn'
        continueLoop := true }
    | none =>
      -- the validation send raised; the inner except's own send_error
      -- raises as well, so the exception escapes and the session ends
      { db := db, msgs := [], conn := conn, continueLoop := false }
  else
    let content := mkGeneratingContent nextId userId req
    let db1 := db ++ [content]
    match sendMsg conn with
    | none =>
      -- "started" send raised; send_error in the except raises too
      { db := db1, msgs := [], conn := conn, continueLoop := false }
    | some conn1 =>
      let startedMsgs := [Msg.started nextId]
      match streamChunks "" [] conn1 chunks with
      | (_, deliveredChunks, conn2, false) =>
        -- a chunk send raised mid-stream: the generator is abandoned, the
        -- record keeps status "generating" and empty body; send_error in
        -- the except raises again, terminating the session
        { db := db1
          msgs := startedMsgs ++ deliveredChunks
          conn := conn2
          continueLoop := false }
      | (acc, deliveredChunks, conn2, true) =>
        match streamErr with
        | some e =>
          -- the stream itself raised; the connection is still live here
          match sendMsg conn2 with
          | some conn3 =>
            let failed :=
              { content with
                  status := "failed"
                  metadata := setMeta content.metadata "error" (MetaVal.str e) }
            { db := db ++ [failed]
              msgs := startedMsgs ++ deliveredChunks ++
                [Msg.error ("Generation failed: " ++ e)]
              conn := conn3
              continueLoop := true }
          | none =>
            { db := db1
              msgs := startedMsgs ++ deliveredChunks
              conn := conn2
              continueLoop := false }
        | none =>
          let drafted := { content with body := acc, status := "draft" }
          let db2 := db ++ [drafted]
          match sendMsg conn2 with
          | some conn3 =>
            { db := db2
              msgs := startedMsgs ++ deliveredChunks ++ [Msg.complete nextId]
              conn := conn3
              continueLoop := true }
          | none =>
            -- draft already committed; send_complete raised and the
            -- except's send_error raised again
            { db := db2
              msgs := startedMsgs ++ deliveredChunks
              conn := conn2
              continueLoop := false }

/-! ## Social media fan-out (`app/services/social_media.py`) -/

/-- The `SocialPlatform` enum. -/
inductive Platform where
  | twitter
  | facebook
  | linkedin
  | instagram
  deriving DecidableEq, Repr

def Platform.name : Platform → String
  | .twitter => "twitter"
  | .facebook => "facebook"
  | .linkedin => "linkedin"
  | .instagram => "instagram"

/-- The success payload of one adapter call (`post_tweet` returns
`tweet_id`/`tweet_url`, `post_to_page` and `create_post` return
`post_id`/`post_url`). -/
structure PostData where
  postId : Option String
  tweetId : Option String
  deriving DecidableEq, Repr

/-- One entry of the map returned by `post_to_multiple`:
`{"success": True, "data": result}` or `{"success": False, "error": str(e)}`. -/
inductive PostResult where
  | ok (data : PostData)
  | failed (error : String)
  deriving DecidableEq, Repr

/-- `SocialMediaManager.post_to_multiple`: for each requested platform
*that has a configured service* (`if platform in self.services`) the
adapter capability `outcome` is invoked and its success or exception is
recorded; a requested platform with no configured service produces no
task and hence no entry in the result map. One platform's outcome never
touches another's entry. -/
def post_to_multiple (services : List Platform) (platforms : List Platform)
    (outcome : Platform → Except String PostData) :
    List (Platform × PostResult) :=
  (platforms.filter (fun p => p ∈ services)).map (fun p =>
    match outcome p with
    | .ok d => (p, PostResult.ok d)
    | .error e => (p, PostResult.failed e))

/-- Python `a or b` on optional strings as used in
`result.get("data", {}).get("post_id") or result.get("data", {}).get("tweet_id")`:
first value if present and non-empty, else the second. -/
def orElseStr : Option String → Option String → Option String
  | some s, b => if s = "" then b else some s
  | none, b => b

/-- The per-platform entry written into `content.metadata["social_media"]`
by `publish_to_social_media`: status, post id, error. -/
def socialMetaEntry (p : Platform) (r : PostResult) : SocialEntry :=
  match r with
  | .ok d => (p.name, "published", orElseStr d.postId d.tweetId, none)
  | .failed e => (p.name, "failed", none, some e)

/-- The tail of `publish_to_social_media` (`app/tasks/publishing_tasks.py`
lines 166-198): run `post_to_multiple` over the requested platforms with
the configured services, merge the per-platform results into
`content.metadata["social_media"]`, then set `content.status = "published"`
and `content.published_at` — unconditionally, with no inspection of the
per-platform outcomes.  The construction of the outgoing text and the
credential plumbing do not touch the record and are elided; the adapter
boundary is the `outcome` capability. -/
def publish_to_social_media (content : ContentRec)
    (platforms : List Platform) (services : List Platform)
    (outcome : Platform → Except String PostData) (now : Int) : ContentRec :=
  let results := post_to_multiple services platforms outcome
  let entries := results.map (fun pr => socialMetaEntry pr.1 pr.2)
  { content with
      metadata := setMeta content.metadata "social_media"
        (MetaVal.socialResults entries)
      status := "published"
      publishedAt := some now }

/-! ## Content PATCH endpoint (`app/api/v1/content.py`, `update_content`) -/

/-- Errors the content API can raise (`app/core/exceptions.py` declares
both `NotFoundException` and `ConflictException`; the content endpoints
only ever raise the former). -/
inductive ApiError where
  | notFound (msg : String)
  | conflict (msg : String)
  deriving DecidableEq, Repr

/-- The PATCH body (`ContentUpdate`): every field optional. -/
structure ContentUpdate where
  title : Option String
  body : Option String
  status : Option String
  metadata : Option (List (String × MetaVal))
  deriving DecidableEq, Repr

/-- Apply a `ContentUpdate` to a record exactly as the endpoint does:
each supplied field overwrites the stored one, the status included —
there is no check of the record's current status. -/
def applyUpdate (c : ContentRec) (u : ContentUpdate) : ContentRec :=
  let c1 := match u.title with | some t => { c with title := some t } | none => c
  let c2 := match u.body with | some b => { c1 with body := b } | none => c1
  let c3 := match u.status with | some s => { c2 with status := s } | none => c2
  match u.metadata with | some m => { c3 with metadata := m } | none => c3

/-- `update_content`: look the record up by id and owner; 404 when absent;
otherwise overwrite the supplied fields and commit. Returns the updated
store. -/
def update_content (db : List ContentRec) (contentId userId : Nat)
    (u : ContentUpdate) : Except ApiError (List ContentRec) :=
  if db.any (fun c => c.id = contentId ∧ c.userId = userId) then
    .ok (db.map (fun c =>
      if c.id = contentId ∧ c.userId = userId then applyUpdate c u else c))
  else
    .error (ApiError.notFound "Content not found")

/-! ## Scheduler sweep (`publish_scheduled_content`) -/

/-- The sweep's selection predicate:
`Content.status == "scheduled"` and `Content.scheduled_for <= now`
(a record with no scheduled time never satisfies the SQL comparison). -/
def isDue (c : ContentRec) (now : Int) : Bool :=
  c.status = "scheduled" &&
    match c.scheduledFor with
    | some t => decide (t ≤ now)
    | none => false

/-- Per-record processing inside the sweep's `for` loop: the `try` block
marks the record `published` and stamps `published_at`; the `except`
branch — taken when anything in the block raises, which the oracle
`fails` stands for — marks it `failed` instead. -/
def sweepProcess (c : ContentRec) (fails : Bool) (now : Int) : ContentRec :=
  if fails then { c with status := "failed" }
  else { c with status := "published", publishedAt := some now }

/-- `publish_scheduled_content`: select the due records, process each one
inside its own `try`/`except` (so one record's exception never reaches
another record), count successes and failures, and commit.  Returns the
updated store and the `published`/`failed` counts.  `procFails` is the
per-record exception oracle, keyed by content id. -/
def publish_scheduled_content (db : List ContentRec) (now : Int)
    (procFails : Nat → Bool) : List ContentRec × Nat × Nat :=
  match db with
  | [] => ([], 0, 0)
  | c :: rest =>
    let r := publish_scheduled_content rest now procFails
    if isDue c now then
      if procFails c.id then
        (sweepProcess c true now :: r.1, r.2.1, r.2.2 + 1)
      else
        (sweepProcess c false now :: r.1, r.2.1 + 1, r.2.2)
    else
      (c :: r.1, r.2.1, r.2.2)

/-! ## Celery retry behaviour (`content_tasks.py`, `publishing_tasks.py`) -/

/-- The specification's error taxonomy: transient (retry) vs terminal
(never retry). -/
inductive ErrClass where
  | transient
  | terminal
  deriving DecidableEq, Repr

/-- Number of executions a Celery task with `max_retries = maxRetries`
performs when attempt `i` (0-based) raises iff `outcome i` is `some`
class: `except Exception as exc: raise self.retry(...)` re-enqueues on
*every* exception — the error's class is never consulted — until the
retry budget is gone.  `fuel` bounds the recursion at the first attempt
index tried; calling with `fuel = maxRetries + 1` covers every attempt
the framework can run. -/
def celeryAttempts (outcome : Nat → Option ErrClass) (maxRetries : Nat) :
    Nat → Nat → Nat
  | _, 0 => 0
  | i, fuel + 1 =>
    match outcome i with
    | none => 1
    | some _ =>
      if i < maxRetries then 1 + celeryAttempts outcome maxRetries (i + 1) fuel
      else 1

/-- Total attempts of `generate_content_task` (`max_retries=3`) on a given
failure pattern. -/
def generateTaskAttempts (outcome : Nat → Option ErrClass) : Nat :=
  celeryAttempts outcome 3 0 4

/-- The countdown passed to `self.retry` by `generate_content_task` before
attempt `n` (n ≥ 2): `60 * (2 ** self.request.retries)` with
`retries = n - 2`. -/
def generateTaskCountdown (n : Nat) : Nat := 60 * 2 ^ (n - 2)

/-- The countdown passed to `self.retry` by `publish_to_wordpress` and
`publish_to_social_media`: the constant `300`. -/
def publishTaskCountdown (_n : Nat) : Nat := 300

/-- The Content record created by `batch_generate_content`
(`app/tasks/content_tasks.py` lines 132-144): empty body, status
`"queued"`, metadata flagging the batch. -/
def mkBatchQueuedContent (contentId userId campaignId : Nat)
    (ctype : String) (title : String) : ContentRec :=
  { id := contentId
    userId := userId
    campaignId := some campaignId
    ctype := ctype
    title := some title
    body := ""
    metadata := [("batch_generated", MetaVal.str "true")]
    status := "queued"
    scheduledFor := none
    publishedAt := none }

/-! ## Shared helper lemmas -/

/-- Streaming with a live connection (`conn = none`) delivers every chunk
in order and accumulates their concatenation. -/
theorem streamChunks_live (cs : List String) :
    ∀ (acc : String) (d : List Msg),
      streamChunks acc d none cs =
        (cs.foldl (fun a c => a ++ c) acc, d ++ cs.map Msg.chunk, none, true) := by
  induction cs with
  | nil => intro acc d; simp [streamChunks]
  | cons c rest ih =>
    intro acc d
    simp only [streamChunks, sendMsg, List.foldl, List.map]
    rw [ih]
    simp

/-- Streaming with only `j` sends of budget left fails on chunk `j + 1`
(when it exists): the first `j` chunks are delivered, the loop raises, and
`false` is reported. -/
theorem streamChunks_exhausted (cs : List String) :
    ∀ (j : Nat) (acc : String) (d : List Msg), j < cs.length →
      streamChunks acc d (some j) cs =
        ((cs.take (j + 1)).foldl (fun a c => a ++ c) acc,
          d ++ (cs.take j).map Msg.chunk, some 0, false) := by
  induction cs with
  | nil => intro j acc d h; simp at h
  | cons c rest ih =>
    intro j acc d h
    match j with
    | 0 => simp [streamChunks, sendMsg]
    | Nat.succ j' =>
      simp only [streamChunks, sendMsg]
      rw [ih j' (acc ++ c) (d ++ [Msg.chunk c]) (by simpa using h)]
      simp [List.take, List.foldl]

/-- The canonical result entry `post_to_multiple` stores for a platform. -/
def resultEntry (outcome : Platform → Except String PostData) (p : Platform) :
    PostResult :=
  match outcome p with
  | .ok d => PostResult.ok d
  | .error e => PostResult.failed e

theorem post_to_multiple_eq_map (services platforms : List Platform)
    (outcome : Platform → Except String PostData) :
    post_to_multiple services platforms outcome =
      (platforms.filter (fun p => p ∈ services)).map
        (fun p => (p, resultEntry outcome p)) := by
  unfold post_to_multiple
  apply List.map_congr_left
  intro p _
  unfold resultEntry
  cases outcome p <;> rfl

/-- Every requested *and configured* platform gets its entry. -/
theorem mem_post_to_multiple (services platforms : List Platform)
    (outcome : Platform → Except String PostData) (p : Platform)
    (hp : p ∈ platforms) (hs : p ∈ services) :
    (p, resultEntry outcome p) ∈ post_to_multiple services platforms outcome := by
  rw [post_to_multiple_eq_map]
  exact List.mem_map.mpr ⟨p, List.mem_filter.mpr ⟨hp, by simpa using hs⟩, rfl⟩

/-- A platform's entry in the result map is determined by that platform's
own outcome alone. -/
theorem lookup_post_to_multiple (services platforms : List Platform)
    (outcome : Platform → Except String PostData) (p : Platform) :
    List.lookup p (post_to_multiple services platforms outcome) =
      if p ∈ platforms.filter (fun q => q ∈ services)
      then some (resultEntry outcome p) else none := by
  rw [post_to_multiple_eq_map]
  induction platforms with
  | nil => simp
  | cons q rest ih =>
    rw [List.filter_cons]
    by_cases hq : q ∈ services
    · rw [if_pos (by simpa using hq)]
      by_cases hpq : p = q
      · subst hpq
        simp [List.lookup]
      · have hbeq : (p == q) = false := beq_false_of_ne hpq
        simp only [List.map_cons, List.lookup, hbeq]
        rw [ih]
        simp [hpq]
    · rw [if_neg (by simpa using hq)]
      exact ih

/-- Looking up a key just written by `setMeta` returns the new value. -/
theorem lookup_setMeta (m : List (String × MetaVal)) (k : String) (v : MetaVal) :
    List.lookup k (setMeta m k v) = some v := by
  unfold setMeta
  induction m with
  | nil => simp [List.lookup]
  | cons kv rest ih =>
    obtain ⟨k1, v1⟩ := kv
    rw [List.filter_cons]
    by_cases hk : k1 = k
    · rw [if_neg (by simp [hk])]
      exact ih
    · rw [if_pos (by simpa using hk)]
      have hbeq : (k == k1) = false := beq_false_of_ne (fun h => hk h.symm)
      simp only [List.cons_append, List.lookup, hbeq]
      exact ih

/-! ## Claim theorems -/

/-- C2: the claim says the Content status type admits the seven lifecycle
states, `queued`, `generating` and `failed` among them, and that the
generation paths assign those values.  The generation paths do assign
them — `websocket_generate_content` creates records in `"generating"` and
marks failures `"failed"`, `batch_generate_content` creates records in
`"queued"` — but the declared `ContentStatus` enum admits only `draft`,
`published`, `scheduled` and `archived`, so the code assigns status values
its own column type does not admit. -/
theorem contentStatus_missing_generation_states :
    (mkGeneratingContent 1 2 ⟨"blog_post", none, "write", none, []⟩).status
        = "generating" ∧
    (mkBatchQueuedContent 1 2 3 "blog_post" "t").status = "queued" ∧
    ((handleRequest [] 1 2 ⟨"blog_post", none, "write", none, []⟩ []
        (some "boom") none).db.map ContentRec.status = ["failed"]) ∧
    "generating" ∉ contentStatusValues ∧
    "queued" ∉ contentStatusValues ∧
    "failed" ∉ contentStatusValues ∧
    ∀ s ∈ contentStatusValues, s ∈ specStatusValues := by decide

/-- C5 counterexample: a terminal error passed to the generation task is
*not* attempted exactly once — the Celery `except Exception` clause
retries it like any other failure, so an always-terminal-failing operation
is executed 4 times (1 + max_retries), not once (and not the claimed
maxAttempts = 3 either). -/
theorem terminal_error_retried_counterexample :
    generateTaskAttempts (fun _ => some ErrClass.terminal) = 4 ∧
    generateTaskAttempts (fun _ => some ErrClass.terminal) ≠ 1 ∧
    generateTaskAttempts (fun _ => some ErrClass.transient) ≠ 3 := by decide

/-- C5 amended: the retry path never consults the error class.  Any
operation that fails on every attempt — terminal or transient — is
executed exactly 4 times (1 + max_retries with max_retries = 3), and the
delay before attempt n (n ≥ 2) is 60 * 2^(n-2) seconds for
`generate_content_task` but the constant 300 seconds for the publishing
tasks. -/
theorem celery_retry_ignores_error_class (outcome : Nat → Option ErrClass)
    (h : ∀ i, (outcome i).isSome) :
    generateTaskAttempts outcome = 4 ∧
    (∀ n, 2 ≤ n → generateTaskCountdown n = 60 * 2 ^ (n - 2)) ∧
    (∀ n, publishTaskCountdown n = 300) := by
  obtain ⟨c0, h0⟩ := Option.isSome_iff_exists.mp (h 0)
  obtain ⟨c1, h1⟩ := Option.isSome_iff_exists.mp (h 1)
  obtain ⟨c2, h2⟩ := Option.isSome_iff_exists.mp (h 2)
  obtain ⟨c3, h3⟩ := Option.isSome_iff_exists.mp (h 3)
  refine ⟨?_, fun n _ => rfl, fun n => rfl⟩
  simp [generateTaskAttempts, celeryAttempts, h0, h1, h2, h3]

theorem celery_retry_ignores_error_class_witness :
    generateTaskAttempts (fun _ => some ErrClass.terminal) = 4 ∧
    (∀ n, 2 ≤ n → generateTaskCountdown n = 60 * 2 ^ (n - 2)) ∧
    (∀ n, publishTaskCountdown n = 300) :=
  celery_retry_ignores_error_class (fun _ => some ErrClass.terminal)
    (fun _ => rfl)

/-- A stored record used by the C3 counterexample: already `published`. -/
def samplePublished : ContentRec :=
  { id := 1
    userId := 7
    campaignId := none
    ctype := "blog_post"
    title := some "t"
    body := "b"
    metadata := []
    status := "published"
    scheduledFor := none
    publishedAt := some 10 }

/-- C3 counterexample: the status-mutation operation of the content API is
not guarded by an expected-`from` check — a PATCH carrying
`status = "draft"` against a record currently `published` succeeds
outright (a transition the claimed state machine does not even allow) and
never returns `Conflict`, so an unconditional status overwrite exists. -/
theorem update_content_overwrite_counterexample :
    update_content [samplePublished] 1 7 ⟨none, none, some "draft", none⟩ =
      Except.ok [{ samplePublished with status := "draft" }] := by rfl

/-- C3 amended: Content status mutation is unconditional.  `update_content`
can only fail with `NotFound`; whenever a status value is supplied, the
matched record's status is overwritten with it regardless of its current
value, and the publishing task likewise forces `published`
unconditionally.  No `Conflict`-guarded transition exists. -/
theorem update_content_has_no_conflict_guard (db : List ContentRec)
    (cid uid : Nat) (u : ContentUpdate) (c : ContentRec) (s : String)
    (platforms services : List Platform)
    (outcome : Platform → Except String PostData) (now : Int)
    (hs : u.status = some s) :
    ((∃ db', update_content db cid uid u = Except.ok db') ∨
      update_content db cid uid u =
        Except.error (ApiError.notFound "Content not found")) ∧
    (applyUpdate c u).status = s ∧
    (publish_to_social_media c platforms services outcome now).status
      = "published" := by
  refine ⟨?_, ?_, rfl⟩
  · unfold update_content
    by_cases h : db.any (fun c => c.id = cid ∧ c.userId = uid)
    · exact Or.inl ⟨_, by rw [if_pos h]⟩
    · exact Or.inr (by rw [if_neg h])
  · unfold applyUpdate
    rw [hs]
    cases u.metadata <;> simp

theorem update_content_has_no_conflict_guard_witness :
    ((∃ db', update_content [samplePublished] 1 7
        ⟨none, none, some "draft", none⟩ = Except.ok db') ∨
      update_content [samplePublished] 1 7 ⟨none, none, some "draft", none⟩ =
        Except.error (ApiError.notFound "Content not found")) ∧
    (applyUpdate samplePublished ⟨none, none, some "draft", none⟩).status
      = "draft" ∧
    (publish_to_social_media samplePublished [] []
        (fun _ => Except.error "e") 0).status = "published" :=
  update_content_has_no_conflict_guard [samplePublished] 1 7
    ⟨none, none, some "draft", none⟩ samplePublished "draft" [] []
    (fun _ => Except.error "e") 0 rfl

/-- C7 counterexample: a requested platform with no configured service is
silently dropped from the dispatch result — `twitter` is requested, the
manager has no services, and the returned map has no entry for it at all,
not even a failure detail. -/
theorem unconfigured_platform_dropped_counterexample :
    post_to_multiple [] [Platform.twitter] (fun _ => Except.error "boom") = [] ∧
    List.lookup Platform.twitter
      (post_to_multiple [] [Platform.twitter] (fun _ => Except.error "boom"))
      = none :=
  ⟨rfl, rfl⟩

/-- C7 amended: every requested platform *that has a configured service*
appears in the result map with an explicit success or failure entry, and
one platform's entry is determined by its own adapter outcome alone (two
outcome assignments agreeing on `p` yield the same entry for `p`), so one
platform's error never blocks or corrupts another's result; but a
requested platform with no configured service is silently omitted. -/
theorem post_to_multiple_reports_configured (services platforms : List Platform)
    (outcome outcome' : Platform → Except String PostData) (p : Platform)
    (hp : p ∈ platforms) (hs : p ∈ services)
    (hagree : outcome p = outcome' p) :
    ((∃ d, outcome p = Except.ok d ∧
        (p, PostResult.ok d) ∈ post_to_multiple services platforms outcome) ∨
      (∃ e, outcome p = Except.error e ∧
        (p, PostResult.failed e) ∈ post_to_multiple services platforms outcome)) ∧
    List.lookup p (post_to_multiple services platforms outcome) =
      List.lookup p (post_to_multiple services platforms outcome') := by
  constructor
  · have hmem := mem_post_to_multiple services platforms outcome p hp hs
    cases hoc : outcome p with
    | ok d => exact Or.inl ⟨d, rfl, by simpa [resultEntry, hoc] using hmem⟩
    | error e => exact Or.inr ⟨e, rfl, by simpa [resultEntry, hoc] using hmem⟩
  · rw [lookup_post_to_multiple, lookup_post_to_multiple]
    have he : resultEntry outcome p = resultEntry outcome' p := by
      unfold resultEntry
      rw [hagree]
    rw [he]

theorem post_to_multiple_reports_configured_witness :
    ((∃ d, (fun (_ : Platform) => (Except.error "boom" : Except String PostData))
            Platform.twitter = Except.ok d ∧
        (Platform.twitter, PostResult.ok d) ∈
          post_to_multiple [Platform.twitter] [Platform.twitter]
            (fun _ => Except.error "boom")) ∨
      (∃ e, (fun (_ : Platform) => (Except.error "boom" : Except String PostData))
            Platform.twitter = Except.error e ∧
        (Platform.twitter, PostResult.failed e) ∈
          post_to_multiple [Platform.twitter] [Platform.twitter]
            (fun _ => Except.error "boom"))) ∧
    List.lookup Platform.twitter
      (post_to_multiple [Platform.twitter] [Platform.twitter]
        (fun _ => Except.error "boom")) =
    List.lookup Platform.twitter
      (post_to_multiple [Platform.twitter] [Platform.twitter]
        (fun _ => Except.error "boom")) :=
  post_to_multiple_reports_configured [Platform.twitter] [Platform.twitter]
    (fun _ => Except.error "boom") (fun _ => Except.error "boom")
    Platform.twitter (by decide) (by decide) rfl

/-- A draft record used by the C1 dispatch counterexample and witness. -/
def sampleDraft : ContentRec :=
  { id := 2
    userId := 7
    campaignId := none
    ctype := "social_post"
    title := some "t"
    body := "hello"
    metadata := []
    status := "draft"
    scheduledFor := none
    publishedAt := none }

/-- C1 counterexample: two configured platforms both fail terminally, yet
`publish_to_social_media` advances the record to `published`, not the
claimed `failed` — the status assignment never inspects the per-platform
outcomes (both failures are, however, recorded in metadata). -/
theorem all_fail_dispatch_published_counterexample :
    (publish_to_social_media sampleDraft [Platform.twitter, Platform.facebook]
        [Platform.twitter, Platform.facebook]
        (fun _ => Except.error "boom") 5).status = "published" ∧
    (publish_to_social_media sampleDraft [Platform.twitter, Platform.facebook]
        [Platform.twitter, Platform.facebook]
        (fun _ => Except.error "boom") 5).metadata =
      [("social_media", MetaVal.socialResults
        [("twitter", "failed", none, some "boom"),
         ("facebook", "failed", none, some "boom")])] :=
  ⟨rfl, rfl⟩

/-- C1 amended: after a dispatch settles, each configured requested
platform's failure detail is merged into `Content.metadata` under
`social_media`, keyed by platform — but the status is advanced to
`published` unconditionally (with `published_at` stamped), even when every
requested platform failed; the record is never moved to `failed`. -/
theorem dispatch_always_marks_published (c : ContentRec)
    (platforms services : List Platform)
    (outcome : Platform → Except String PostData) (now : Int) (p : Platform)
    (e : String) (hp : p ∈ platforms) (hs : p ∈ services)
    (he : outcome p = Except.error e) :
    (publish_to_social_media c platforms services outcome now).status
      = "published" ∧
    (publish_to_social_media c platforms services outcome now).publishedAt
      = some now ∧
    ∃ entries,
      List.lookup "social_media"
        (publish_to_social_media c platforms services outcome now).metadata =
        some (MetaVal.socialResults entries) ∧
      (p.name, "failed", none, some e) ∈ entries := by
  refine ⟨rfl, rfl, ?_⟩
  refine ⟨(post_to_multiple services platforms outcome).map
    (fun pr => socialMetaEntry pr.1 pr.2), ?_, ?_⟩
  · exact lookup_setMeta c.metadata "social_media" _
  · have hmem := mem_post_to_multiple services platforms outcome p hp hs
    exact List.mem_map.mpr ⟨(p, resultEntry outcome p), hmem,
      by simp [resultEntry, he, socialMetaEntry]⟩

theorem dispatch_always_marks_published_witness :
    (publish_to_social_media sampleDraft [Platform.twitter]
        [Platform.twitter] (fun _ => Except.error "boom") 5).status
      = "published" ∧
    (publish_to_social_media sampleDraft [Platform.twitter]
        [Platform.twitter] (fun _ => Except.error "boom") 5).publishedAt
      = some 5 ∧
    ∃ entries,
      List.lookup "social_media"
        (publish_to_social_media sampleDraft [Platform.twitter]
          [Platform.twitter] (fun _ => Except.error "boom") 5).metadata =
        some (MetaVal.socialResults entries) ∧
      (Platform.twitter.name, "failed", none, some "boom") ∈ entries :=
  dispatch_always_marks_published sampleDraft [Platform.twitter]
    [Platform.twitter] (fun _ => Except.error "boom") 5 Platform.twitter
    "boom" (by decide) (by decide) rfl

/-- C8: one sweep invocation selects exactly the records in status
`scheduled` whose scheduled-for time is at or before `now`
(`isDue`), transforms each selected record by its own per-record
processing alone — a record raising inside the loop is marked `failed` by
that record's `except` clause and the mapping of every other record is
unaffected, non-selected records are untouched — and the returned counts
partition the selected records into published and failed. -/
theorem scheduler_sweep_selects_due_and_counts (db : List ContentRec)
    (now : Int) (procFails : Nat → Bool) :
    (publish_scheduled_content db now procFails).1 =
      db.map (fun c =>
        if isDue c now then sweepProcess c (procFails c.id) now else c) ∧
    (publish_scheduled_content db now procFails).2.1 =
      (db.filter (fun c => isDue c now && !procFails c.id)).length ∧
    (publish_scheduled_content db now procFails).2.2 =
      (db.filter (fun c => isDue c now && procFails c.id)).length ∧
    (publish_scheduled_content db now procFails).2.1 +
        (publish_scheduled_content db now procFails).2.2 =
      (db.filter (fun c => isDue c now)).length := by
  induction db with
  | nil => exact ⟨rfl, rfl, rfl, rfl⟩
  | cons c rest ih =>
    obtain ⟨ih1, ih2, ih3, ih4⟩ := ih
    by_cases hd : isDue c now
    · by_cases hf : procFails c.id
      · simp [publish_scheduled_content, List.filter_cons, hd, hf,
          ih1, ih2, ih3]
        omega
      · simp [publish_scheduled_content, List.filter_cons, hd, hf,
          ih1, ih2, ih3]
        omega
    · simp [publish_scheduled_content, List.filter_cons, hd,
        ih1, ih2, ih3]
      omega

/-- C6: when the token stream completes without error over a live
connection, the final Content body is the concatenation, in delivery
order, of exactly the chunks forwarded to the session (each chunk message
matches one stream chunk, in order), the record transitions to `draft`,
and the session receives `complete` carrying the same Content id that the
`started` message announced. -/
theorem generation_complete_concatenates_chunks (db : List ContentRec)
    (nextId userId : Nat) (req : GenRequest) (chunks : List String)
    (hty : req.rtype ≠ "") (hpr : req.prompt ≠ "") :
    (handleRequest db nextId userId req chunks none none).db =
      db ++ [{ mkGeneratingContent nextId userId req with
                body := String.join chunks, status := "draft" }] ∧
    (handleRequest db nextId userId req chunks none none).msgs =
      Msg.started nextId :: (chunks.map Msg.chunk ++ [Msg.complete nextId]) ∧
    (handleRequest db nextId userId req chunks none none).continueLoop
      = true := by
  unfold handleRequest
  rw [if_neg (by tauto)]
  simp only [sendMsg]
  rw [streamChunks_live]
  simp [String.join]

theorem generation_complete_concatenates_chunks_witness :
    (handleRequest [] 1 2 ⟨"blog_post", none, "write", none, []⟩
        ["Hello ", "world"] none none).db =
      [{ mkGeneratingContent 1 2 ⟨"blog_post", none, "write", none, []⟩ with
          body := String.join ["Hello ", "world"], status := "draft" }] ∧
    (handleRequest [] 1 2 ⟨"blog_post", none, "write", none, []⟩
        ["Hello ", "world"] none none).msgs =
      Msg.started 1 :: (["Hello ", "world"].map Msg.chunk ++
        [Msg.complete 1]) ∧
    (handleRequest [] 1 2 ⟨"blog_post", none, "write", none, []⟩
        ["Hello ", "world"] none none).continueLoop = true := by
  have h := generation_complete_concatenates_chunks [] 1 2
    ⟨"blog_post", none, "write", none, []⟩ ["Hello ", "world"]
    (by decide) (by decide)
  simpa using h

/-- C9: a request with a missing or empty content type or prompt is
rejected without creating any Content record — the store is unchanged
for every connection state — and, over a live connection, the session
receives exactly the error message and the request loop continues to
accept further requests. -/
theorem invalid_request_rejected_without_record (db : List ContentRec)
    (nextId userId : Nat) (req : GenRequest) (chunks : List String)
    (streamErr : Option String) (conn : Conn)
    (hinv : req.rtype = "" ∨ req.prompt = "") :
    (handleRequest db nextId userId req chunks streamErr conn).db = db ∧
    (handleRequest db nextId userId req chunks streamErr none).msgs =
      [Msg.error "Missing required fields: type and prompt"] ∧
    (handleRequest db nextId userId req chunks streamErr none).continueLoop
      = true := by
  refine ⟨?_, ?_, ?_⟩
  · unfold handleRequest
    rw [if_pos hinv]
    cases conn with
    | none => rfl
    | some k => cases k with | zero => rfl | succ k' => rfl
  · unfold handleRequest
    rw [if_pos hinv]
    rfl
  · unfold handleRequest
    rw [if_pos hinv]
    rfl

theorem invalid_request_rejected_without_record_witness :
    (handleRequest [] 1 2 ⟨"", none, "write", none, []⟩ [] none none).db
      = [] ∧
    (handleRequest [] 1 2 ⟨"", none, "write", none, []⟩ [] none none).msgs =
      [Msg.error "Missing required fields: type and prompt"] ∧
    (handleRequest [] 1 2 ⟨"", none, "write", none, []⟩ [] none
        none).continueLoop = true :=
  invalid_request_rejected_without_record [] 1 2
    ⟨"", none, "write", none, []⟩ [] none none (Or.inl rfl)

/-- C10: when the token stream raises after the record was created (client
still connected, so the failure handler runs to completion), the record is
committed as the created record with *only* its status and metadata
changed — status `failed`, the error recorded under the `error` metadata
key — while the body keeps its creation value, the empty string: the
partially accumulated text is never persisted. -/
theorem failed_generation_keeps_creation_body (db : List ContentRec)
    (nextId userId : Nat) (req : GenRequest) (chunks : List String)
    (e : String) (hty : req.rtype ≠ "") (hpr : req.prompt ≠ "") :
    (handleRequest db nextId userId req chunks (some e) none).db =
      db ++ [{ mkGeneratingContent nextId userId req with
                status := "failed"
                metadata := setMeta req.metadata "error" (MetaVal.str e) }] ∧
    (mkGeneratingContent nextId userId req).body = "" := by
  refine ⟨?_, rfl⟩
  unfold handleRequest
  rw [if_neg (by tauto)]
  simp only [sendMsg]
  rw [streamChunks_live]
  simp [mkGeneratingContent]

theorem failed_generation_keeps_creation_body_witness :
    (handleRequest [] 1 2 ⟨"blog_post", none, "write", none, []⟩
        ["Hello ", "world"] (some "boom") none).db =
      [{ mkGeneratingContent 1 2 ⟨"blog_post", none, "write", none, []⟩ with
          status := "failed"
          metadata := setMeta [] "error" (MetaVal.str "boom") }] ∧
    (mkGeneratingContent 1 2 ⟨"blog_post", none, "write", none, []⟩).body
      = "" := by
  have h := failed_generation_keeps_creation_body [] 1 2
    ⟨"blog_post", none, "write", none, []⟩ ["Hello ", "world"] "boom"
    (by decide) (by decide)
  simpa using h

/-- C4 counterexample: the session disconnects after the `started` message
(one remaining successful send), so the first chunk delivery raises.  The
generation is aborted, no text is persisted, and the record does *not*
reach `draft` or `failed`: it stays `generating` with an empty body, and
the except handler's own `send_error` raises again, terminating the
session before the failure status could be written. -/
theorem disconnect_aborts_generation_counterexample :
    ((handleRequest [] 1 2 ⟨"blog_post", none, "write", none, []⟩
        ["Hello ", "world"] none (some 1)).db.map ContentRec.status =
      ["generating"]) ∧
    ((handleRequest [] 1 2 ⟨"blog_post", none, "write", none, []⟩
        ["Hello ", "world"] none (some 1)).db.map ContentRec.body = [""]) ∧
    (handleRequest [] 1 2 ⟨"blog_post", none, "write", none, []⟩
        ["Hello ", "world"] none (some 1)).msgs = [Msg.started 1] ∧
    (handleRequest [] 1 2 ⟨"blog_post", none, "write", none, []⟩
        ["Hello ", "world"] none (some 1)).continueLoop = false := by
  decide

/-- C4 amended: a connection lost while chunks are still being streamed
*aborts* the underlying generation — the failed chunk send raises out of
the streaming loop, the accumulated text is discarded, and the Content
record keeps its committed creation state: status `generating` and empty
body, with neither `draft` nor `failed` reached and no messages delivered
past the chunks that fit the remaining budget. -/
theorem disconnect_leaves_record_generating (db : List ContentRec)
    (nextId userId : Nat) (req : GenRequest) (chunks : List String)
    (streamErr : Option String) (k : Nat)
    (hty : req.rtype ≠ "") (hpr : req.prompt ≠ "")
    (hk1 : 1 ≤ k) (hk : k - 1 < chunks.length) :
    (handleRequest db nextId userId req chunks streamErr (some k)).db =
      db ++ [mkGeneratingContent nextId userId req] ∧
    (handleRequest db nextId userId req chunks streamErr (some k)).msgs =
      Msg.started nextId :: (chunks.take (k - 1)).map Msg.chunk ∧
    (handleRequest db nextId userId req chunks streamErr
        (some k)).continueLoop = false := by
  obtain ⟨k', rfl⟩ : ∃ k', k = k' + 1 := ⟨k - 1, by omega⟩
  unfold handleRequest
  rw [if_neg (by tauto)]
  simp only [sendMsg]
  rw [streamChunks_exhausted chunks k' "" [] (by simpa using hk)]
  simp

theorem disconnect_leaves_record_generating_witness :
    (handleRequest [] 1 2 ⟨"blog_post", none, "write", none, []⟩
        ["Hello ", "world"] none (some 1)).db =
      [mkGeneratingContent 1 2 ⟨"blog_post", none, "write", none, []⟩] ∧
    (handleRequest [] 1 2 ⟨"blog_post", none, "write", none, []⟩
        ["Hello ", "world"] none (some 1)).msgs =
      Msg.started 1 :: ((["Hello ", "world"].take 0).map Msg.chunk) ∧
    (handleRequest [] 1 2 ⟨"blog_post", none, "write", none, []⟩
        ["Hello ", "world"] none (some 1)).continueLoop = false := by
  have h := disconnect_leaves_record_generating [] 1 2
    ⟨"blog_post", none, "write", none, []⟩ ["Hello ", "world"] none 1
    (by decide) (by decide) (by omega) (by decide)
  simpa using h

end APA
